import Mathlib

/-!
Shallow embedding of `src/turbojpeg-sys/build.rs` (the build script of the
`turbojpeg-sys` crate).

Modelling choices, uniform across the file:
* The process environment is a function `Env : String → Option String`
  (`OsString` values are modelled as `String`).
* Compile-time cargo features (`cmake`, `pkg-config`, `bindgen`) become the
  `Features` record, so `cfg!(feature = "...")` reads a record field, as the
  spec's design notes prescribe for conditional compilation.
* Every `println!` of the script is recorded in an output list of
  `BuildOutput` records (cargo directives and diagnostic lines), returned
  alongside the result instead of being printed.
* `anyhow::Result` becomes `Except String`; `.context(msg)` on a failed value
  is modelled as the error string `msg ++ ": " ++ cause`, and `.context` on a
  missing `Option` as the error string `msg`.
* External tools are oracles passed in as functions: the pkg-config registry,
  the cmake build, and the bindgen generator.
* The filesystem is a function from path to optional byte contents; paths are
  strings and `PathBuf::join` is string concatenation with a slash.
* `TARGET` (always set by cargo) is a plain parameter `target`.
* Rust's `to_uppercase` / `eq_ignore_ascii_case` are modelled with ASCII case
  mapping, which coincides with the source on the ASCII data involved.
-/

/-- One line printed by the build script: cargo directives and diagnostics. -/
inductive BuildOutput where
  /-- cargo:rerun-if-env-changed=name -/
  | rerunEnvChanged (name : String)
  /-- diagnostic "name = value" for a set variable -/
  | diagSet (name value : String)
  /-- diagnostic "name unset" for an unset variable -/
  | diagUnset (name : String)
  /-- any other informational println -/
  | info (msg : String)
  /-- cargo:rustc-link-search=native=dir -/
  | linkSearchNative (dir : String)
  /-- cargo:rustc-link-lib=static=lib -/
  | linkLibStatic (lib : String)
  /-- cargo:rerun-if-changed=path -/
  | rerunChanged (path : String)
  deriving DecidableEq, Repr

/-- The process environment: variable name to optional value. -/
def Env : Type := String → Option String

/-- The compile-time cargo features of the crate. -/
structure Features where
  cmake : Bool
  pkg_config : Bool
  bindgen : Bool
  deriving DecidableEq, Repr

/-- The record produced by library resolution (struct `Library` in the source). -/
structure Library where
  include_paths : List String
  defines : List (String × Option String)
  deriving DecidableEq, Repr

/-- ASCII lowercasing of a string, character by character (Lean's
`Char.toLower` folds exactly the ASCII uppercase letters, as Rust's
`to_ascii_lowercase` does). -/
def asciiLower (s : String) : String :=
  String.mk (s.data.map Char.toLower)

/-- Rust `str::eq_ignore_ascii_case`, via ASCII lowercasing of both sides. -/
def eqIgnoreAsciiCase (a b : String) : Bool :=
  asciiLower a == asciiLower b

/-- The target-platform prefix: `TARGET` uppercased with every "-" replaced
by "_" (source line 214). -/
def targetPrefix (target : String) : String :=
  String.mk (target.data.map (fun c => if c = '-' then '_' else c.toUpper))

/-- Prepend earlier output lines to a strategy result. -/
def withOut {α : Type} (out0 : List BuildOutput)
    (r : Except String α × List BuildOutput) :
    Except String α × List BuildOutput :=
  (r.1, out0 ++ r.2)

/-- Inner helper of `env` (source lines 202-212): read one variable, register
it for rerun-on-change and emit a diagnostic line. -/
def envInner (e : Env) (name : String) : Option String × List BuildOutput :=
  let value := e name
  (value,
    [BuildOutput.rerunEnvChanged name,
     match value with
     | some v => BuildOutput.diagSet name v
     | none => BuildOutput.diagUnset name])

/-- The environment accessor `env` (source lines 199-217): check the
target-prefixed name first, then (only if it was unset) the bare name. -/
def env (e : Env) (target name : String) : Option String × List BuildOutput :=
  let prefixed := targetPrefix target ++ "_" ++ name
  let r1 := envInner e prefixed
  match r1.1 with
  | some v => (some v, r1.2)
  | none =>
    let r2 := envInner e name
    (r2.1, r1.2 ++ r2.2)

/-- `env_path` (source lines 234-236): `env` with the value read as a path. -/
def env_path (e : Env) (target name : String) :
    Option String × List BuildOutput :=
  env e target name

/-- `a.or_else(|| b)` over two lazy `env_path` reads, with the second read
(and its output) performed only when the first is unset. -/
def envPathOrElse (e : Env) (target name legacy : String) :
    Option String × List BuildOutput :=
  let r1 := env_path e target name
  match r1.1 with
  | some v => (some v, r1.2)
  | none =>
    let r2 := env_path e target legacy
    (r2.1, r1.2 ++ r2.2)

/-- The truthy vocabulary of `env_bool` (source line 222). -/
def truthyValues : List String := ["", "1", "yes", "true", "on"]

/-- The falsy vocabulary of `env_bool` (source line 225). -/
def falsyValues : List String := ["0", "no", "false", "off"]

/-- The error message of `env_bool` for a value outside both vocabularies
(source line 228; the Debug formatting of the value adds quotes). -/
def envBoolErrMsg (name value : String) : String :=
  "Env variable " ++ name ++ " has value \"" ++ value ++
    "\", expected empty or boolean"

/-- `env_bool` (source lines 219-232): truthy and falsy vocabularies checked
case-insensitively, any other set value is an error, unset is `none`. -/
def env_bool (e : Env) (target name : String) :
    Except String (Option Bool) × List BuildOutput :=
  let r := env e target name
  match r.1 with
  | some value =>
    if truthyValues.any (fun v => eqIgnoreAsciiCase value v) then
      (Except.ok (some true), r.2)
    else if falsyValues.any (fun v => eqIgnoreAsciiCase value v) then
      (Except.ok (some false), r.2)
    else
      (Except.error (envBoolErrMsg name value), r.2)
  | none => (Except.ok none, r.2)

instance {ε α : Type} [DecidableEq ε] [DecidableEq α] : DecidableEq (Except ε α) :=
  fun x y =>
    match x, y with
    | .ok a, .ok b => if h : a = b then .isTrue (by simp [h]) else .isFalse (by simp [h])
    | .ok _, .error _ => .isFalse (by simp)
    | .error _, .ok _ => .isFalse (by simp)
    | .error a, .error b => if h : a = b then .isTrue (by simp [h]) else .isFalse (by simp [h])

/-- Error message of `find_explicit` when no library directory variable is set. -/
def libDirUnsetMsg : String :=
  "TURBOJPEG_SOURCE is set to 'explicit', but TURBOJPEG_LIB_DIR is not set"

/-- Error message of `find_explicit` when no include directory variable is set. -/
def includeDirUnsetMsg : String :=
  "TURBOJPEG_SOURCE is set to 'explicit', but TURBOJPEG_INCLUDE_DIR is not set"

/-- `find_explicit` (source lines 74-90): read the library directory (with
legacy alias), then the include directory (with legacy alias); emit the
linker directives and return the include directory. -/
def find_explicit (e : Env) (target : String) :
    Except String Library × List BuildOutput :=
  let out0 := [BuildOutput.info
    "Using TURBOJPEG_LIB_DIR and TURBOJPEG_INCLUDE_DIR to find turbojpeg"]
  let rl := envPathOrElse e target "TURBOJPEG_LIB_DIR" "TURBOJPEG_LIB_PATH"
  match rl.1 with
  | none => (Except.error libDirUnsetMsg, out0 ++ rl.2)
  | some lib_dir =>
    let ri := envPathOrElse e target "TURBOJPEG_INCLUDE_DIR" "TURBOJPEG_INCLUDE_PATH"
    match ri.1 with
    | none => (Except.error includeDirUnsetMsg, out0 ++ rl.2 ++ ri.2)
    | some include_dir =>
      (Except.ok { include_paths := [include_dir], defines := [] },
       out0 ++ rl.2 ++ ri.2 ++
         [BuildOutput.linkSearchNative lib_dir,
          BuildOutput.linkLibStatic "turbojpeg"])

/-- What the pkg-config registry reports for a probed library. -/
structure PkgLib where
  include_paths : List String
  defines : List (String × Option String)
  deriving DecidableEq, Repr

/-- The pkg-config registry as an oracle: library name and minimum version in,
either a report or a probe-failure cause out. -/
def Registry : Type := String → String → Except String PkgLib

/-- The cmake build as an oracle: source path in, destination path out. -/
def CMake : Type := String → String

/-- The filesystem: path to optional byte contents. -/
def Filesystem : Type := String → Option (List Nat)

/-- What the script passes to the bindgen builder. -/
structure BindgenInvocation where
  header : String
  clang_args : List String
  deriving DecidableEq, Repr

/-- The bindgen generator as an oracle: `none` models a generation failure
(the source drops the underlying cause with `map_err`). -/
def Bindgen : Type := BindgenInvocation → Option (List Nat)

/-- `PathBuf::join` on string paths. -/
def pathJoin (a b : String) : String := a ++ "/" ++ b

/-- Error message of `build_or_find_library` for an unknown TURBOJPEG_SOURCE
value (source lines 34-37; Rust's trailing backslash joins the lines). -/
def unknownSourceMsg : String :=
  "Unknown value of TURBOJPEG_SOURCE, supported values are:\n- 'vendor' to build the library from source bundled with the turbojpeg-sys crate,\n- 'pkg-config' to find the library using pkg-config,\n- 'explicit' to use TURBOJPEG_LIB_DIR and TURBOJPEG_INCLUDE_DIR"

/-- Error message of the disabled `find_pkg_config` variant (source lines 68-71). -/
def pkgConfigDisabledMsg : String :=
  "Trying to find turbojpeg using pkg-config, but the `pkg-config` feature is disabled. You have two options:\n- enable `pkg-config` feature of `turbojpeg-sys` crate\n- use TURBOJPEG_SOURCE to select other source for the library"

/-- Error message of the disabled `build_vendor` variant (source lines 113-116;
the source has no space after "disabled." before the line continuation). -/
def cmakeDisabledMsg : String :=
  "Trying to build turbojpeg from source, but the `cmake` feature is disabled.You have two options:\n- enable `cmake` feature of `turbojpeg-sys` crate\n- use TURBOJPEG_SOURCE to select other source for the library"

/-- Error message of `generate_or_copy_bindings` for an unknown
TURBOJPEG_BINDING value (source lines 129-131). -/
def unknownBindingMsg : String :=
  "Unknown value of TURBOJPEG_BINDING, supported values are:\n- `pregenerated` to use our pregenerated Rust bindings,\n- `bindgen` to generate the bindings with bindgen"

/-- Error message of the disabled `generate_bindings` variant (source lines 191-194). -/
def bindgenDisabledMsg : String :=
  "Trying to build bindings with bindgen, but the `bindgen` feature is disabled. You have two options:\n- enable `bindgen` feature of `turbojpeg-sys` crate\n- use TURBOJPEG_BINDING to select other method to obtain the bindings"

/-- `find_pkg_config` (source lines 52-72): both cfg variants, selected by
the `pkg-config` feature field. The probe is the `Registry` oracle, asked
for "libturbojpeg" at least version "2.0"; a probe failure is wrapped in
the context message. -/
def find_pkg_config (feats : Features) (reg : Registry) :
    Except String Library × List BuildOutput :=
  if feats.pkg_config then
    let out0 := [BuildOutput.info "Using pkg-config to find libturbojpeg"]
    match reg "libturbojpeg" "2.0" with
    | .error cause =>
      (.error ("could not find turbojpeg using pkg-config: " ++ cause), out0)
    | .ok lib =>
      (.ok { include_paths := lib.include_paths, defines := lib.defines }, out0)
  else
    (.error pkgConfigDisabledMsg, [])

/-- `build_vendor` (source lines 93-117): both cfg variants, selected by the
`cmake` feature field. The cmake build is the `CMake` oracle. Note: in the
source the cfg(not(feature = "cmake")) variant is declared with return type
Result of unit although both call sites require Result of Library; the
value-level behaviour (the bail with its message) is what is embedded here. -/
def build_vendor (feats : Features) (cm : CMake) (e : Env) :
    Except String Library × List BuildOutput :=
  if feats.cmake then
    let out0 := [BuildOutput.info "Building turbojpeg from source"]
    match e "CARGO_MANIFEST_DIR" with
    | none => (.error "environment variable not found", out0)
    | some manifest =>
      let source_path := pathJoin manifest "libjpeg-turbo"
      let dst_path := cm source_path
      let lib_path := pathJoin dst_path "lib"
      let include_path := pathJoin dst_path "include"
      (.ok { include_paths := [include_path], defines := [] },
       out0 ++ [BuildOutput.linkSearchNative lib_path,
                BuildOutput.linkLibStatic "turbojpeg"])
  else
    (.error cmakeDisabledMsg, [])

/-- `build_or_find_library` (source lines 21-50): dispatch on the
TURBOJPEG_SOURCE selector read through the `env` accessor; when it is unset,
fall back on the compiled-in capabilities, cmake first, then pkg-config,
else the explicit directories. -/
def build_or_find_library (feats : Features) (cm : CMake) (reg : Registry)
    (e : Env) (target : String) : Except String Library × List BuildOutput :=
  let r := env e target "TURBOJPEG_SOURCE"
  match r.1 with
  | some source =>
    if eqIgnoreAsciiCase source "vendor" then
      withOut r.2 (build_vendor feats cm e)
    else if eqIgnoreAsciiCase source "pkg-config" ||
        eqIgnoreAsciiCase source "pkgconfig" ||
        eqIgnoreAsciiCase source "pkgconf" then
      withOut r.2 (find_pkg_config feats reg)
    else if eqIgnoreAsciiCase source "explicit" then
      withOut r.2 (find_explicit e target)
    else
      (.error unknownSourceMsg, r.2)
  | none =>
    if feats.cmake then
      withOut r.2 (build_vendor feats cm e)
    else if feats.pkg_config then
      withOut r.2 (find_pkg_config feats reg)
    else
      withOut r.2 (find_explicit e target)

/-- `copy_pregenerated_bindings` (source lines 144-151): copy bindings.rs from
the crate root into OUT_DIR and register the source file for rerun-on-change.
The two unwraps on plain environment reads and the fs::copy I/O failure are
modelled as errors with fixed messages. -/
def copy_pregenerated_bindings (fs : Filesystem) (e : Env) :
    Except String Filesystem × List BuildOutput :=
  let out0 := [BuildOutput.info "Using pregenerated bindings"]
  match e "OUT_DIR" with
  | none => (.error "called unwrap on a None value: OUT_DIR", out0)
  | some out_path =>
    match e "CARGO_MANIFEST_DIR" with
    | none => (.error "called unwrap on a None value: CARGO_MANIFEST_DIR", out0)
    | some crate_path =>
      let src := pathJoin crate_path "bindings.rs"
      let dst := pathJoin out_path "bindings.rs"
      match fs src with
      | none => (.error "could not copy bindings.rs: No such file or directory", out0)
      | some content =>
        (.ok (fun p => if p = dst then some content else fs p),
         out0 ++ [BuildOutput.rerunChanged src])

/-- `generate_bindings` (source lines 153-195): both cfg variants, selected by
the `bindgen` feature field. The builder configuration is reduced to its
header and clang argument list and handed to the `Bindgen` oracle; writing
the generated bytes to OUT_DIR/bindings.rs is a filesystem update. -/
def generate_bindings (feats : Features) (gen : Bindgen) (fs : Filesystem)
    (e : Env) (target : String) (library : Library) :
    Except String Filesystem × List BuildOutput :=
  if feats.bindgen then
    let out0 := [BuildOutput.info "Generating bindings using bindgen"]
    let includeArgs := library.include_paths.map (fun p => "-I" ++ p)
    let rerunOuts := library.include_paths.map BuildOutput.rerunChanged
    let defineArgs := library.defines.map (fun d =>
      match d.2 with
      | some v => "-D" ++ d.1 ++ "=" ++ v
      | none => "-D" ++ d.1)
    let args := ["-target", target] ++ includeArgs ++ defineArgs
    match gen { header := "wrapper.h", clang_args := args } with
    | none => (.error "could not generate bindings", out0 ++ rerunOuts)
    | some content =>
      match e "OUT_DIR" with
      | none => (.error "called unwrap on a None value: OUT_DIR", out0 ++ rerunOuts)
      | some out_dir =>
        let out_file := pathJoin out_dir "bindings.rs"
        (.ok (fun p => if p = out_file then some content else fs p),
         out0 ++ rerunOuts ++
           [BuildOutput.info ("Generated bindings are stored in " ++ out_file)])
  else
    (.error bindgenDisabledMsg, [])

/-- `generate_or_copy_bindings` (source lines 121-142): dispatch on the
TURBOJPEG_BINDING selector read through the `env` accessor; when it is unset,
generate if the bindgen capability is compiled in, else copy. -/
def generate_or_copy_bindings (feats : Features) (gen : Bindgen)
    (fs : Filesystem) (e : Env) (target : String) (library : Library) :
    Except String Filesystem × List BuildOutput :=
  let r := env e target "TURBOJPEG_BINDING"
  match r.1 with
  | some binding =>
    if eqIgnoreAsciiCase binding "pregenerated" then
      withOut r.2 (copy_pregenerated_bindings fs e)
    else if eqIgnoreAsciiCase binding "bindgen" then
      withOut r.2 (generate_bindings feats gen fs e target library)
    else
      (.error unknownBindingMsg, r.2)
  | none =>
    if feats.bindgen then
      withOut r.2 (generate_bindings feats gen fs e target library)
    else
      withOut r.2 (copy_pregenerated_bindings fs e)

/-! Concrete fixtures for witness instances. -/

/-- Example target triple used in concrete instances. -/
def exTarget : String := "x86_64-unknown-linux-gnu"

/-- An environment with every variable unset. -/
def emptyEnv : Env := fun _ => none

/-- Example cmake oracle. -/
def cm0 : CMake := fun _ => "/dst"

/-- Example registry oracle that reports one include path and one define. -/
def reg0 : Registry := fun _ _ =>
  .ok { include_paths := ["/pkg/include"], defines := [("PNG", none)] }

/-- Example registry oracle with no matching entry. -/
def regFail : Registry := fun _ _ => .error "probe failed"

/-- Example bindgen oracle. -/
def gen0 : Bindgen := fun _ => some [1, 2, 3]

/-- Example filesystem holding the pregenerated bindings file. -/
def fs0 : Filesystem := fun p =>
  if p = "/crate/bindings.rs" then some [7, 8, 9] else none

/-- Environment for the explicit strategy via the legacy alias variables. -/
def eLegacy : Env := fun n =>
  if n = "TURBOJPEG_LIB_PATH" then some "/x"
  else if n = "TURBOJPEG_INCLUDE_PATH" then some "/y"
  else none

/-- Environment setting only the explicit library directory, not the include
directory. -/
def eLibOnly : Env := fun n =>
  if n = "TURBOJPEG_LIB_DIR" then some "/x" else none

/-- Environment where the prefixed selector shadows the bare one. -/
def ePrefixed : Env := fun n =>
  if n = "X86_64_UNKNOWN_LINUX_GNU_TURBOJPEG_SOURCE" then some "explicit"
  else if n = "TURBOJPEG_SOURCE" then some "vendor"
  else none

/-- Environment with one boolean-style variable set to "ON". -/
def eBool : Env := fun n => if n = "TURBOJPEG_FLAG" then some "ON" else none

/-- Environment for the copy strategy. -/
def eCopy : Env := fun n =>
  if n = "OUT_DIR" then some "/out"
  else if n = "CARGO_MANIFEST_DIR" then some "/crate" else none

/-- Environment selecting an unknown library source and an unknown binding. -/
def eUnknown : Env := fun n =>
  if n = "TURBOJPEG_SOURCE" then some "magic"
  else if n = "TURBOJPEG_BINDING" then some "magic" else none

/-- Environment selecting TURBOJPEG_SOURCE=vendor. -/
def eVendor : Env := fun n => if n = "TURBOJPEG_SOURCE" then some "vendor" else none

/-- All three capabilities compiled in. -/
def featsAll : Features := { cmake := true, pkg_config := true, bindgen := true }

/-- No capability compiled in. -/
def featsNone : Features := { cmake := false, pkg_config := false, bindgen := false }

/-! Theorems. -/

/-- Helper: the prefixed variable name is never the bare name. -/
theorem prefixed_ne_bare (target name : String) :
    targetPrefix target ++ "_" ++ name ≠ name := by
  intro hEq
  have hlen := congrArg String.length hEq
  rw [String.length_append, String.length_append] at hlen
  have h1 : ("_" : String).length = 1 := rfl
  omega

/-- C5: the target-prefixed variant is checked first and wins. -/
theorem env_prefixed_precedence :
    (∀ (e : Env) (target name v : String),
      e (targetPrefix target ++ "_" ++ name) = some v →
      (env e target name).1 = some v) ∧
    (∀ (e : Env) (target name : String), ∃ rest,
      (env e target name).2 =
        BuildOutput.rerunEnvChanged (targetPrefix target ++ "_" ++ name) :: rest) ∧
    ((env ePrefixed exTarget "TURBOJPEG_SOURCE").1 = some "explicit" ∧
      ePrefixed "TURBOJPEG_SOURCE" = some "vendor")
  := by
  refine ⟨?_, ?_, by decide, by decide⟩
  · intro e target name v h
    simp [env, envInner, h]
  · intro e target name
    by_cases h : e (targetPrefix target ++ "_" ++ name) = none
    · simp [env, envInner, h]
    · obtain ⟨v, hv⟩ := Option.ne_none_iff_exists'.mp h
      simp [env, envInner, hv]

theorem env_prefixed_precedence_witness :
    (env ePrefixed exTarget "TURBOJPEG_SOURCE").1 = some "explicit" :=
  env_prefixed_precedence.1 ePrefixed exTarget "TURBOJPEG_SOURCE" "explicit" (by decide)

/-- C10: when the prefixed variant is set the bare name is never read. -/
theorem env_prefixed_shadows_bare (e : Env) (target name v : String)
    (h : e (targetPrefix target ++ "_" ++ name) = some v) :
    env e target name =
      (some v,
       [BuildOutput.rerunEnvChanged (targetPrefix target ++ "_" ++ name),
        BuildOutput.diagSet (targetPrefix target ++ "_" ++ name) v]) ∧
    BuildOutput.rerunEnvChanged name ∉ (env e target name).2 ∧
    (∀ w, BuildOutput.diagSet name w ∉ (env e target name).2) ∧
    BuildOutput.diagUnset name ∉ (env e target name).2 ∧
    (∀ w, env (fun n => if n = name then w else e n) target name = env e target name) := by
  have hne := prefixed_ne_bare target name
  refine ⟨by simp [env, envInner, h], ?_, ?_, ?_, ?_⟩
  · simp [env, envInner, h]
    exact fun hEq => hne hEq.symm
  · intro w
    simp [env, envInner, h]
    exact fun hEq => absurd hEq.symm hne
  · simp [env, envInner, h]
  · intro w
    simp [env, envInner, h, hne]

theorem env_prefixed_shadows_bare_witness :
    BuildOutput.rerunEnvChanged "TURBOJPEG_SOURCE" ∉
      (env ePrefixed exTarget "TURBOJPEG_SOURCE").2 :=
  (env_prefixed_shadows_bare ePrefixed exTarget "TURBOJPEG_SOURCE" "explicit"
    (by decide)).2.1

/-- Helper: a value accepted by the truthy vocabulary is rejected by the
falsy one (the two lowercase vocabularies share no element). -/
theorem truthy_not_falsy (v : String)
    (ht : truthyValues.any (fun s => eqIgnoreAsciiCase v s) = true) :
    falsyValues.any (fun s => eqIgnoreAsciiCase v s) = false := by
  simp only [truthyValues, falsyValues, List.any_cons, List.any_nil,
    Bool.or_eq_true, Bool.or_false, eqIgnoreAsciiCase, beq_iff_eq] at ht ⊢
  simp only [Bool.or_eq_false_iff, beq_eq_false_iff_ne, ne_eq]
  rcases ht with h | h | h | h | h <;> rw [h] <;> refine ⟨?_, ?_, ?_, ?_⟩ <;> decide

/-- Helper: the result of `env_bool` once the accessor has reported a value. -/
theorem env_bool_eq_of_some (e : Env) (target name v : String)
    (h : (env e target name).1 = some v) :
    env_bool e target name =
      (if truthyValues.any (fun s => eqIgnoreAsciiCase v s) then Except.ok (some true)
       else if falsyValues.any (fun s => eqIgnoreAsciiCase v s) then Except.ok (some false)
       else Except.error (envBoolErrMsg name v), (env e target name).2) := by
  simp only [env_bool, h]
  split_ifs <;> rfl

/-- C6: the boolean accessor yields true exactly on the truthy vocabulary,
false exactly on the falsy one, a descriptive error naming variable and value
otherwise, and no value (without failing) when the variable is unset. -/
theorem env_bool_spec (e : Env) (target name : String) :
    ((env e target name).1 = none →
      env_bool e target name = (Except.ok none, (env e target name).2)) ∧
    (∀ v, (env e target name).1 = some v →
      (((env_bool e target name).1 = Except.ok (some true)) ↔
        truthyValues.any (fun s => eqIgnoreAsciiCase v s) = true) ∧
      (((env_bool e target name).1 = Except.ok (some false)) ↔
        falsyValues.any (fun s => eqIgnoreAsciiCase v s) = true) ∧
      (truthyValues.any (fun s => eqIgnoreAsciiCase v s) = false →
        falsyValues.any (fun s => eqIgnoreAsciiCase v s) = false →
        (env_bool e target name).1 = Except.error (envBoolErrMsg name v))) := by
  constructor
  · intro h
    simp [env_bool, h]
  · intro v h
    rw [env_bool_eq_of_some e target name v h]
    by_cases ht : truthyValues.any (fun s => eqIgnoreAsciiCase v s) = true
    · rw [if_pos ht]
      refine ⟨by simp [ht], ?_, by intro hf; rw [hf] at ht; cases ht⟩
      rw [truthy_not_falsy v ht]
      simp
    · have ht' : truthyValues.any (fun s => eqIgnoreAsciiCase v s) = false := by
        simpa using ht
      rw [if_neg ht]
      by_cases hf : falsyValues.any (fun s => eqIgnoreAsciiCase v s) = true
      · rw [if_pos hf]
        exact ⟨by simp [ht'], by simp [hf], by intro _ hf'; rw [hf'] at hf; cases hf⟩
      · have hf' : falsyValues.any (fun s => eqIgnoreAsciiCase v s) = false := by
          simpa using hf
        rw [if_neg hf]
        exact ⟨by simp [ht'], by simp [hf'], by intro _ _; rfl⟩

theorem env_bool_spec_witness :
    (env_bool eBool "" "TURBOJPEG_FLAG").1 = Except.ok (some true) :=
  (((env_bool_spec eBool "" "TURBOJPEG_FLAG").2 "ON" (by decide)).1).mpr (by decide)

/-- C1: with the selector unset, the capability precedence is cmake (vendor
build) over pkg-config (registry probe) over the explicit directories. -/
theorem build_or_find_library_unset_precedence (feats : Features) (cm : CMake)
    (reg : Registry) (e : Env) (target : String)
    (h : (env e target "TURBOJPEG_SOURCE").1 = none) :
    (feats.cmake = true →
      build_or_find_library feats cm reg e target =
        withOut (env e target "TURBOJPEG_SOURCE").2 (build_vendor feats cm e)) ∧
    (feats.cmake = false → feats.pkg_config = true →
      build_or_find_library feats cm reg e target =
        withOut (env e target "TURBOJPEG_SOURCE").2 (find_pkg_config feats reg)) ∧
    (feats.cmake = false → feats.pkg_config = false →
      build_or_find_library feats cm reg e target =
        withOut (env e target "TURBOJPEG_SOURCE").2 (find_explicit e target)) := by
  refine ⟨?_, ?_, ?_⟩
  · intro hc
    simp [build_or_find_library, h, hc]
  · intro hc hp
    simp [build_or_find_library, h, hc, hp]
  · intro hc hp
    simp [build_or_find_library, h, hc, hp]

theorem build_or_find_library_unset_precedence_witness :
    build_or_find_library featsAll cm0 reg0 emptyEnv exTarget =
      withOut (env emptyEnv exTarget "TURBOJPEG_SOURCE").2
        (build_vendor featsAll cm0 emptyEnv) :=
  (build_or_find_library_unset_precedence featsAll cm0 reg0 emptyEnv exTarget
    (by decide)).1 rfl

/-- C9: the explicit strategy is gated by no capability flag: selecting it
runs it whatever the features are, it is the unconditional fallback when the
selector is unset and no capability is compiled in, and its only failure
modes are the two missing-directory-variable errors. -/
theorem find_explicit_ungated :
    (∀ (feats : Features) (cm : CMake) (reg : Registry) (e : Env) (target s : String),
      (env e target "TURBOJPEG_SOURCE").1 = some s →
      eqIgnoreAsciiCase s "explicit" = true →
      build_or_find_library feats cm reg e target =
        withOut (env e target "TURBOJPEG_SOURCE").2 (find_explicit e target)) ∧
    (∀ (feats : Features) (cm : CMake) (reg : Registry) (e : Env) (target : String),
      (env e target "TURBOJPEG_SOURCE").1 = none →
      feats.cmake = false → feats.pkg_config = false →
      build_or_find_library feats cm reg e target =
        withOut (env e target "TURBOJPEG_SOURCE").2 (find_explicit e target)) ∧
    (∀ (e : Env) (target msg : String),
      (find_explicit e target).1 = Except.error msg →
      msg = libDirUnsetMsg ∨ msg = includeDirUnsetMsg) := by
  refine ⟨?_, ?_, ?_⟩
  · intro feats cm reg e target s hs hx
    have hlow : asciiLower s = asciiLower "explicit" := by
      simpa [eqIgnoreAsciiCase] using hx
    have hv : eqIgnoreAsciiCase s "vendor" = false := by
      simp [eqIgnoreAsciiCase, hlow]
      decide
    have hp1 : eqIgnoreAsciiCase s "pkg-config" = false := by
      simp [eqIgnoreAsciiCase, hlow]
      decide
    have hp2 : eqIgnoreAsciiCase s "pkgconfig" = false := by
      simp [eqIgnoreAsciiCase, hlow]
      decide
    have hp3 : eqIgnoreAsciiCase s "pkgconf" = false := by
      simp [eqIgnoreAsciiCase, hlow]
      decide
    simp [build_or_find_library, hs, hv, hp1, hp2, hp3, hx]
  · intro feats cm reg e target h hc hp
    simp [build_or_find_library, h, hc, hp]
  · intro e target msg h
    rcases hl : (envPathOrElse e target "TURBOJPEG_LIB_DIR" "TURBOJPEG_LIB_PATH").1 with _ | lib
    · simp [find_explicit, hl] at h
      exact Or.inl h.symm
    · rcases hi : (envPathOrElse e target "TURBOJPEG_INCLUDE_DIR" "TURBOJPEG_INCLUDE_PATH").1 with _ | inc
      · simp [find_explicit, hl, hi] at h
        exact Or.inr h.symm
      · simp [find_explicit, hl, hi] at h

theorem find_explicit_ungated_witness :
    build_or_find_library featsNone cm0 reg0 emptyEnv exTarget =
      withOut (env emptyEnv exTarget "TURBOJPEG_SOURCE").2
        (find_explicit emptyEnv exTarget) :=
  find_explicit_ungated.2.1 featsNone cm0 reg0 emptyEnv exTarget (by decide) rfl rfl

/-- C3: any selector value outside the documented enumeration, matched
case-insensitively, makes resolution fail with the enumeration-listing
message, for both TURBOJPEG_SOURCE and TURBOJPEG_BINDING. -/
theorem unknown_selector_fails (feats : Features) (cm : CMake) (reg : Registry)
    (gen : Bindgen) (fs : Filesystem) (e : Env) (target : String) (lib : Library) :
    (∀ s, (env e target "TURBOJPEG_SOURCE").1 = some s →
      eqIgnoreAsciiCase s "vendor" = false →
      eqIgnoreAsciiCase s "pkg-config" = false →
      eqIgnoreAsciiCase s "pkgconfig" = false →
      eqIgnoreAsciiCase s "pkgconf" = false →
      eqIgnoreAsciiCase s "explicit" = false →
      (build_or_find_library feats cm reg e target).1 = Except.error unknownSourceMsg) ∧
    (∀ b, (env e target "TURBOJPEG_BINDING").1 = some b →
      eqIgnoreAsciiCase b "pregenerated" = false →
      eqIgnoreAsciiCase b "bindgen" = false →
      (generate_or_copy_bindings feats gen fs e target lib).1 =
        Except.error unknownBindingMsg) := by
  constructor
  · intro s hs h1 h2 h3 h4 h5
    simp [build_or_find_library, hs, h1, h2, h3, h4, h5]
  · intro b hb h1 h2
    simp [generate_or_copy_bindings, hb, h1, h2]

theorem unknown_selector_fails_witness :
    (build_or_find_library featsAll cm0 reg0 eUnknown exTarget).1 =
        Except.error unknownSourceMsg ∧
      (generate_or_copy_bindings featsAll gen0 fs0 eUnknown exTarget
          { include_paths := [], defines := [] }).1 =
        Except.error unknownBindingMsg :=
  ⟨(unknown_selector_fails featsAll cm0 reg0 gen0 fs0 eUnknown exTarget
      { include_paths := [], defines := [] }).1 "magic"
      (by decide) (by decide) (by decide) (by decide) (by decide) (by decide),
   (unknown_selector_fails featsAll cm0 reg0 gen0 fs0 eUnknown exTarget
      { include_paths := [], defines := [] }).2 "magic"
      (by decide) (by decide) (by decide)⟩

/-- C2: the explicit strategy returns exactly the include directory as the
include paths, emits the linker search-path and static-link directives for
the library directory, and fails naming TURBOJPEG_INCLUDE_DIR when the
include variable and its legacy alias are unset. -/
theorem find_explicit_spec (e : Env) (target lx : String)
    (hl : (envPathOrElse e target "TURBOJPEG_LIB_DIR" "TURBOJPEG_LIB_PATH").1 = some lx) :
    (∀ iy, (envPathOrElse e target "TURBOJPEG_INCLUDE_DIR" "TURBOJPEG_INCLUDE_PATH").1 = some iy →
      (find_explicit e target).1 =
        Except.ok { include_paths := [iy], defines := [] } ∧
      BuildOutput.linkSearchNative lx ∈ (find_explicit e target).2 ∧
      BuildOutput.linkLibStatic "turbojpeg" ∈ (find_explicit e target).2) ∧
    ((envPathOrElse e target "TURBOJPEG_INCLUDE_DIR" "TURBOJPEG_INCLUDE_PATH").1 = none →
      (find_explicit e target).1 = Except.error includeDirUnsetMsg) := by
  constructor
  · intro iy hi
    refine ⟨by simp [find_explicit, hl, hi], ?_, ?_⟩ <;> simp [find_explicit, hl, hi]
  · intro hi
    simp [find_explicit, hl, hi]

theorem find_explicit_spec_witness :
    ((find_explicit eLegacy exTarget).1 =
        Except.ok { include_paths := ["/y"], defines := [] } ∧
      BuildOutput.linkSearchNative "/x" ∈ (find_explicit eLegacy exTarget).2 ∧
      BuildOutput.linkLibStatic "turbojpeg" ∈ (find_explicit eLegacy exTarget).2) ∧
    (find_explicit eLibOnly exTarget).1 = Except.error includeDirUnsetMsg :=
  ⟨(find_explicit_spec eLegacy exTarget "/x" (by decide)).1 "/y" (by decide),
   (find_explicit_spec eLibOnly exTarget "/x" (by decide)).2 (by decide)⟩

/-- C8: with the capability enabled, the registry probe asks for libturbojpeg
at least version 2.0 and nothing else, returns exactly the reported include
paths and defines, and wraps a probe failure in context. -/
theorem find_pkg_config_spec (b c : Bool) (reg : Registry) :
    (∀ lib, reg "libturbojpeg" "2.0" = Except.ok lib →
      find_pkg_config ⟨b, true, c⟩ reg =
        (Except.ok { include_paths := lib.include_paths, defines := lib.defines },
         [BuildOutput.info "Using pkg-config to find libturbojpeg"])) ∧
    (∀ cause, reg "libturbojpeg" "2.0" = Except.error cause →
      find_pkg_config ⟨b, true, c⟩ reg =
        (Except.error ("could not find turbojpeg using pkg-config: " ++ cause),
         [BuildOutput.info "Using pkg-config to find libturbojpeg"])) ∧
    (∀ reg2 : Registry, reg2 "libturbojpeg" "2.0" = reg "libturbojpeg" "2.0" →
      find_pkg_config ⟨b, true, c⟩ reg2 = find_pkg_config ⟨b, true, c⟩ reg) := by
  refine ⟨?_, ?_, ?_⟩
  · intro lib h
    simp [find_pkg_config, h]
  · intro cause h
    simp [find_pkg_config, h]
  · intro reg2 h
    simp [find_pkg_config, h]

theorem find_pkg_config_spec_witness :
    find_pkg_config featsAll reg0 =
        (Except.ok { include_paths := ["/pkg/include"], defines := [("PNG", none)] },
         [BuildOutput.info "Using pkg-config to find libturbojpeg"]) ∧
      find_pkg_config featsAll regFail =
        (Except.error "could not find turbojpeg using pkg-config: probe failed",
         [BuildOutput.info "Using pkg-config to find libturbojpeg"]) :=
  ⟨(find_pkg_config_spec true true reg0).1
      { include_paths := ["/pkg/include"], defines := [("PNG", none)] } rfl,
   (find_pkg_config_spec true true regFail).2.1 "probe failed" rfl⟩

/-- C7: with the pregenerated file present, the copy strategy writes its exact
bytes to the same file name under the output directory and registers the
source file for rerun-on-change. -/
theorem copy_pregenerated_spec (fs : Filesystem) (e : Env)
    (out_dir crate_dir : String) (content : List Nat)
    (ho : e "OUT_DIR" = some out_dir) (hc : e "CARGO_MANIFEST_DIR" = some crate_dir)
    (hf : fs (pathJoin crate_dir "bindings.rs") = some content) :
    ∃ fs2,
      copy_pregenerated_bindings fs e =
        (Except.ok fs2,
         [BuildOutput.info "Using pregenerated bindings",
          BuildOutput.rerunChanged (pathJoin crate_dir "bindings.rs")]) ∧
      fs2 (pathJoin out_dir "bindings.rs") = some content := by
  refine ⟨fun p => if p = pathJoin out_dir "bindings.rs" then some content else fs p,
    ?_, by simp⟩
  simp [copy_pregenerated_bindings, ho, hc, hf]

theorem copy_pregenerated_spec_witness :
    ∃ fs2,
      copy_pregenerated_bindings fs0 eCopy =
        (Except.ok fs2,
         [BuildOutput.info "Using pregenerated bindings",
          BuildOutput.rerunChanged (pathJoin "/crate" "bindings.rs")]) ∧
      fs2 (pathJoin "/out" "bindings.rs") = some [7, 8, 9] :=
  copy_pregenerated_spec fs0 eCopy "/out" "/crate" [7, 8, 9]
    (by decide) (by decide) (by decide)

/-- C4: value-level behaviour of each strategy whose capability flag is off:
the embedded variant reports the guidance error message and does nothing
else, and the vendor dispatch surfaces the cmake guidance message. (In the
source the cfg-disabled build_vendor is declared with return type Result of
unit although both call sites need Result of Library, so the script does not
even type-check with the cmake feature off; this embedding keeps its bail
message.) -/
theorem disabled_capability_behaviour (b c : Bool) (cm : CMake) (e : Env)
    (reg : Registry) (gen : Bindgen) (fs : Filesystem) (target : String)
    (lib : Library) :
    build_vendor ⟨false, b, c⟩ cm e = (Except.error cmakeDisabledMsg, []) ∧
    find_pkg_config ⟨b, false, c⟩ reg = (Except.error pkgConfigDisabledMsg, []) ∧
    generate_bindings ⟨b, c, false⟩ gen fs e target lib =
      (Except.error bindgenDisabledMsg, []) ∧
    (build_or_find_library ⟨false, b, c⟩ cm reg eVendor target).1 =
      Except.error cmakeDisabledMsg := by
  have hne := prefixed_ne_bare target "TURBOJPEG_SOURCE"
  refine ⟨rfl, rfl, rfl, ?_⟩
  simp [build_or_find_library, env, envInner, eVendor, hne, build_vendor,
    eqIgnoreAsciiCase, withOut]
